import Mathlib

/-!
A verification development for the Kyocera Solar CLI session-lifecycle code
(`kyocera_cli.py`).  The Python source is shallowly embedded: pure helpers
become Lean functions, the stateful client operations become explicit state
passing, and Python exceptions become explicit outcome values.  External
collaborators (the JSON parser of the standard library, the network) are
modelled as parameters or oracles supplying their observable results.

Conventions of the embedding:
- Python exceptions of the typed `KyoceraError` hierarchy are `POut.kerr`;
  raw exceptions such as `KeyError` or `AttributeError` are `POut.raw`.
- JSON values are the inductive `PyJson`; Python dictionaries coming from
  `json.loads` are association lists with unique keys, looked up with
  `List.lookup`.
- Python truthiness on JSON values is `pyTruthy`; `str.lstrip()` on the
  relevant whitespace is `py_lstrip`; numeric timestamps are modelled
  with integers.
-/

namespace KyoceraCLI

/-- JSON values as produced by `json.loads` in the source. -/
inductive PyJson where
  | null : PyJson
  | bool (b : Bool) : PyJson
  | num (n : Int) : PyJson
  | str (s : String) : PyJson
  | arr (xs : List PyJson) : PyJson
  | obj (kvs : List (String × PyJson)) : PyJson

/-- Raw (untyped) Python exceptions escaping the `KyoceraError` hierarchy. -/
inductive RawExc where
  | keyError : RawExc
  | attributeError : RawExc
  | typeError : RawExc
deriving DecidableEq

/-- The typed error hierarchy of the CLI (`KyoceraError` and subclasses).
`networkError` and `requestFailed` come from `KyoceraClient._request`,
`httpError` is `KyoceraHTTPError`, `authRequired` is `KyoceraAuthRequired`,
`loginError` is `KyoceraLoginError`, `protocolError` is the plain
`KyoceraError` raised for malformed or unexpected envelopes. -/
inductive KErr where
  | loginError (msg : String) : KErr
  | authRequired (msg : String) : KErr
  | httpError (code : Nat) (body : String) : KErr
  | protocolError (msg : String) : KErr
  | networkError (attemptsTried : Nat) (reason : String) : KErr
  | requestFailed (attemptsTried : Nat) : KErr
deriving DecidableEq

/-- Outcome of running a piece of Python code: a normal return, a typed
`KyoceraError`, or a raw exception outside the hierarchy. -/
inductive POut (α : Type) where
  | ok (a : α) : POut α
  | kerr (e : KErr) : POut α
  | raw (r : RawExc) : POut α
deriving DecidableEq

/-- `leadsWith n h` is true when the list `n` is an initial segment of `h`. -/
def leadsWith : List Char → List Char → Bool
  | [], _ => true
  | _ :: _, [] => false
  | a :: as, b :: bs => a = b && leadsWith as bs

/-- `hasSub n h` is true when `n` occurs contiguously inside `h`; this models
the Python substring test `n in h`. -/
def hasSub (needle : List Char) : List Char → Bool
  | [] => needle.isEmpty
  | c :: t => leadsWith needle (c :: t) || hasSub needle t

/-- The whitespace characters stripped by Python `str.lstrip()` (ASCII part). -/
def isPySpace (c : Char) : Bool :=
  c = ' ' || c = '\t' || c = '\n' || c = '\r' || c.toNat = 11 || c.toNat = 12

/-- Python `s.lstrip()`. -/
def py_lstrip (s : String) : String := ⟨s.data.dropWhile isPySpace⟩

/-- The source test `response_text.lstrip().startswith("<")`. -/
def starts_with_lt (s : String) : Bool :=
  match (py_lstrip s).data with
  | [] => false
  | c :: _ => c = '<'

/-- Python truthiness of a JSON value. -/
def pyTruthy : PyJson → Bool
  | .null => false
  | .bool b => b
  | .num n => n ≠ 0
  | .str s => s ≠ ""
  | .arr xs => ¬xs.isEmpty
  | .obj kvs => ¬kvs.isEmpty

/-! ## Transport: `KyoceraClient._request` (source lines 238-291)

The network is an oracle mapping the attempt index to the observable result
of `self.opener.open`: a decoded body, an `urllib.error.HTTPError` with
status code and decoded body, or an `urllib.error.URLError` with reason. -/

/-- Result of one attempt of `self.opener.open` inside `_request`. -/
inductive AttemptR where
  | success (body : String) : AttemptR
  | httpFail (code : Nat) (body : String) : AttemptR
  | netFail (reason : String) : AttemptR
deriving DecidableEq

/-- The reason string carried by a network failure. -/
def AttemptR.reason : AttemptR → String
  | .netFail r => r
  | _ => ""

/-- Observable run of `_request`: its outcome, the sleep delays performed
between attempts (in seconds, in order), and the number of attempts made. -/
structure ReqRun where
  outcome : POut String
  delays : List Nat
  attempts : Nat
deriving DecidableEq

/-- The retry loop of `_request` starting at a given attempt index
(source lines 266-291).  `HTTPError` raises `KyoceraHTTPError` at once;
`URLError` sleeps `2 ^ attempt` seconds and retries while attempts remain,
and raises the network error after the final attempt.  The fall-through
raise after the loop is reachable only when `retries = 0`. -/
def request_go (oracle : Nat → AttemptR) (retries attempt : Nat) : ReqRun :=
  if _h : attempt < retries then
    match oracle attempt with
    | .success b => ⟨.ok b, [], 1⟩
    | .httpFail c b => ⟨.kerr (.httpError c b), [], 1⟩
    | .netFail r =>
      if attempt < retries - 1 then
        let rest := request_go oracle retries (attempt + 1)
        ⟨rest.outcome, 2 ^ attempt :: rest.delays, rest.attempts + 1⟩
      else ⟨.kerr (.networkError retries r), [], 1⟩
  else ⟨.kerr (.requestFailed retries), [], 0⟩
termination_by retries - attempt
decreasing_by omega

/-- `KyoceraClient._request` with the given per-attempt results. -/
def request (oracle : Nat → AttemptR) (retries : Nat) : ReqRun :=
  request_go oracle retries 0

/-! ## Session store: cookie serialization (source lines 198-236) -/

/-- The fields of `http.cookiejar.Cookie` relevant to the serialization
round trip.  The remaining constructor arguments of the Python `Cookie`
(`version`, `port`, `comment`, `rest`, `rfc2109`) are constants in
`_cookie_from_dict` and are not read by `_cookie_to_dict`. -/
structure PyCookie where
  name : String
  value : Option String
  domain : String
  path : String
  secure : Bool
  expires : Option Int
  discard : Bool
  domain_specified : Bool
  domain_initial_dot : Bool
  path_specified : Bool
deriving DecidableEq

/-- The on-disk dictionary written by `_cookie_to_dict` (all seven keys are
always present). -/
structure CookieDict where
  name : String
  value : Option String
  domain : String
  path : String
  secure : Bool
  expires : Option Int
  discard : Bool
deriving DecidableEq

/-- `KyoceraClient._cookie_to_dict` (source lines 198-208). -/
def cookie_to_dict (c : PyCookie) : CookieDict :=
  ⟨c.name, c.value, c.domain, c.path, c.secure, c.expires, c.discard⟩

/-- `KyoceraClient._cookie_from_dict` on a well-typed dictionary (source
lines 210-236).  A falsy (empty) name yields `None`; otherwise the cookie is
rebuilt with `domain_specified = bool(domain)`,
`domain_initial_dot = domain.startswith(".")`, `path_specified = True`. -/
def cookie_from_dict (d : CookieDict) : Option PyCookie :=
  if d.name = "" then none
  else
    some
      { name := d.name
        value := d.value
        domain := d.domain
        path := d.path
        secure := d.secure
        expires := d.expires
        discard := d.discard
        domain_specified := d.domain ≠ ""
        domain_initial_dot := leadsWith ".".data d.domain.data
        path_specified := true }

/-! ## Login-form locator: `LoginFormParser` (source lines 53-84) and the
form selection of `_download_login_form` (source lines 293-317)

An HTML document is abstracted to the stream of start/end tag events that
`html.parser.HTMLParser` delivers to the handlers, each start tag carrying
its attribute list (a missing attribute value arrives as `None`). -/

/-- A tag event delivered by the HTML tokenizer. -/
inductive HTok where
  | start (tag : String) (attrs : List (String × Option String)) : HTok
  | close (tag : String) : HTok
deriving DecidableEq

/-- `attr_dict = \x7bk: (v or "") for k, v in attrs\x7d` followed by
`attr_dict.get(key)`: the last occurrence of a duplicated attribute wins,
and a `None` value is replaced by the empty string. -/
def attr_get (attrs : List (String × Option String)) (key : String) : Option String :=
  match attrs.reverse.find? (fun p => p.1 == key) with
  | some p => some (p.2.getD "")
  | none => none

/-- One form recorded by `LoginFormParser`: lowercased method (default
"get"), raw `action` attribute, and the named input fields in insertion
order (a dictionary). -/
structure PForm where
  method : String
  action : Option String
  fields : List (String × String)
deriving DecidableEq

/-- Dictionary assignment `d[k] = v`: overwrite in place, else append. -/
def dict_set (d : List (String × String)) (k v : String) : List (String × String) :=
  if d.any (fun p => p.1 == k) then d.map (fun p => if p.1 == k then (k, v) else p)
  else d ++ [(k, v)]

/-- Parser state: the recorded forms, whether a form is currently open
(`_current_form` aliases the most recently appended form while open), and
the last captured csrf meta content. -/
structure PState where
  forms : List PForm
  currentOpen : Bool
  csrf : Option String
deriving DecidableEq

/-- Apply an update to the last recorded form (the one `_current_form`
aliases). -/
def mod_last : List PForm → (PForm → PForm) → List PForm
  | [], _ => []
  | [x], g => [g x]
  | x :: y :: xs, g => x :: mod_last (y :: xs) g

/-- `LoginFormParser.handle_starttag` (source lines 62-80). -/
def handle_starttag (s : PState) (tag : String) (attrs : List (String × Option String)) : PState :=
  if tag = "meta" ∧ attr_get attrs "name" = some "csrf-token" then
    { s with csrf := attr_get attrs "content" }
  else if tag = "form" then
    { s with
      forms := s.forms ++ [⟨((attr_get attrs "method").getD "get").toLower, attr_get attrs "action", []⟩]
      currentOpen := true }
  else if tag = "input" ∧ s.currentOpen then
    match attr_get attrs "name" with
    | none => s
    | some name =>
      if name = "" then s
      else if attr_get attrs "type" = some "submit" ∨ attr_get attrs "type" = some "button" then s
      else
        { s with
          forms := mod_last s.forms
            (fun f => { f with fields := dict_set f.fields name ((attr_get attrs "value").getD "") }) }
  else s

/-- `LoginFormParser.handle_endtag` (source lines 82-84). -/
def handle_endtag (s : PState) (tag : String) : PState :=
  if tag = "form" ∧ s.currentOpen then { s with currentOpen := false } else s

/-- Feed one tag event to the parser. -/
def handle_tok (s : PState) : HTok → PState
  | .start tag attrs => handle_starttag s tag attrs
  | .close tag => handle_endtag s tag

/-- `parser.feed(html)`: run the parser over the whole event stream. -/
def parse_login_page (doc : List HTok) : PState :=
  doc.foldl handle_tok ⟨[], false, none⟩

/-- `any("email" in key.lower() or "login" in key.lower() for key in fields)`
(source line 309). -/
def has_login_field (f : PForm) : Bool :=
  f.fields.any (fun kv =>
    hasSub "email".data kv.1.toLower.data || hasSub "login".data kv.1.toLower.data)

/-- The selected form as returned by `_download_login_form`. -/
structure ChosenForm where
  action : String
  fields : List (String × String)
deriving DecidableEq

/-- Python `x or dflt` on an optional string attribute: `None` and the
empty string are falsy. -/
def py_or_str (v : Option String) (dflt : String) : String :=
  match v with
  | none => dflt
  | some s => if s = "" then dflt else s

/-- `\x7b"action": form.get("action") or "/users/sign_in", "fields": ...\x7d`. -/
def finalize_src (f : PForm) : ChosenForm :=
  ⟨py_or_str f.action "/users/sign_in", f.fields⟩

/-- The selection loop of `_download_login_form` (source lines 302-317),
with `chosen_form` as the accumulator. -/
def choose_form_loop (chosen : Option PForm) : List PForm → Except String ChosenForm
  | [] =>
    match chosen with
    | some f => .ok (finalize_src f)
    | none => .error "Could not locate login form on the Kyocera portal."
  | f :: rest =>
    if f.method = "post" then
      let chosen2 := match chosen with | none => some f | some g => some g
      if has_login_field f then .ok (finalize_src f)
      else choose_form_loop chosen2 rest
    else choose_form_loop chosen rest

/-- The login-form locator applied to a document: parse, then select. -/
def locate_login_form (doc : List HTok) : Except String ChosenForm :=
  choose_form_loop none (parse_login_page doc).forms

/-- Modelled from the spec wording, for comparison with the source loop:
prefer the first POST form with an email/login-like field name, else the
first POST form, else fail; a missing or empty action becomes
`/users/sign_in`. -/
def finalize_spec (f : PForm) : ChosenForm :=
  ⟨(match f.action with
    | none => "/users/sign_in"
    | some a => if a = "" then "/users/sign_in" else a), f.fields⟩

/-- Spec-side selection predicate: a POST form with an email/login field. -/
def post_and_login (f : PForm) : Bool :=
  f.method == "post" && has_login_field f

/-- Spec-side selection policy over the parsed forms. -/
def spec_choose (fs : List PForm) : Except String ChosenForm :=
  match fs.find? post_and_login with
  | some f => .ok (finalize_spec f)
  | none =>
    match fs.find? (fun f => f.method == "post") with
    | some f => .ok (finalize_spec f)
    | none => .error "Could not locate login form on the Kyocera portal."

/-- Spec-side locator over a document. -/
def spec_locate_login_form (doc : List HTok) : Except String ChosenForm :=
  spec_choose (parse_login_page doc).forms

/-! ## `fetch_realtime` envelope handling (source lines 379-410)

The HTTP exchange for the realtime endpoint is abstracted to its result,
and `json.loads` is a parameter: `parse body = none` models a
`json.JSONDecodeError`, `parse body = some j` a successful parse. -/

/-- Result of the realtime GET after transport-level retries. -/
inductive HttpResp where
  | ok (body : String) : HttpResp
  | httpFail (code : Nat) (body : String) : HttpResp
deriving DecidableEq

/-- `data.get("result") != "ok"` is false exactly when the value under
`"result"` is the string `"ok"`. -/
def result_is_ok (v : Option PyJson) : Bool :=
  match v with
  | some (.str s) => s == "ok"
  | _ => false

/-- The response classification of `fetch_realtime` (source lines 392-410):
HTTP 401/403 becomes `KyoceraAuthRequired`; other HTTP failures propagate;
a body whose first non-whitespace character is `<` becomes
`KyoceraAuthRequired`; a JSON parse failure becomes a plain `KyoceraError`;
a non-dictionary value raises `AttributeError` at `data.get`; a `result`
field other than `"ok"` becomes a plain `KyoceraError`; otherwise
`data["data"]` is returned, raising `KeyError` when the key is absent. -/
def fetch_realtime_classify (parse : String → Option PyJson) : HttpResp → POut PyJson
  | .httpFail code body =>
    if code = 401 ∨ code = 403 then .kerr (.authRequired "Session expired or unauthorized.")
    else .kerr (.httpError code body)
  | .ok body =>
    if starts_with_lt body then
      .kerr (.authRequired "Received HTML instead of JSON; probably logged out.")
    else
      match parse body with
      | none => .kerr (.protocolError "Failed to parse realtime payload")
      | some j =>
        match j with
        | .obj kvs =>
          if result_is_ok (kvs.lookup "result") then
            match kvs.lookup "data" with
            | some d => .ok d
            | none => .raw .keyError
          else .kerr (.protocolError "Unexpected API result")
        | _ => .raw .attributeError

/-- The `except KyoceraError` handler at the CLI entry point (source lines
759-763): it catches exactly the typed hierarchy. -/
def main_handles : POut PyJson → Bool
  | .kerr _ => true
  | _ => false

/-! ## Session cache loading: `_load_session_cache` (source lines 169-187)

The cache file is abstracted to the result of opening and `json.load`-ing
it.  The jar is the list of cookies added by `set_cookie`, each represented
by the dictionary JSON value it was built from; the jar the client starts
with is passed in and the final jar is returned, so a load aborted by an
exception keeps the cookies already added (the jar is mutated in place in
the source). -/

/-- The observable content of the cache file. -/
inductive CacheFile where
  | absent : CacheFile
  | unreadable : CacheFile
  | parsed (payload : PyJson) : CacheFile

/-- `_cookie_from_dict` on an arbitrary JSON value (source lines 210-236):
a non-dictionary raises `AttributeError` at `data.get("name")`; a falsy
name returns `None`; a non-string `domain` raises `AttributeError` at
`domain.startswith(".")`; otherwise the `Cookie` is built.  The built
cookie is represented by its source dictionary. -/
def cookie_from_dict_json (d : PyJson) : POut (Option PyJson) :=
  match d with
  | .obj kvs =>
    if pyTruthy ((kvs.lookup "name").getD .null) then
      match (kvs.lookup "domain").getD (.str "") with
      | .str _ => .ok (some (.obj kvs))
      | _ => .raw .attributeError
    else .ok none
  | _ => .raw .attributeError

/-- The cookie loop of `_load_session_cache` (source lines 180-183): each
entry that yields a cookie is added with `set_cookie`; an entry that raises
aborts the loop (the exception is swallowed by the enclosing handler),
keeping the cookies already added. -/
def add_cookies : List PyJson → List PyJson → List PyJson
  | [], jar => jar
  | c :: rest, jar =>
    match cookie_from_dict_json c with
    | .ok (some ck) => add_cookies rest (jar ++ [ck])
    | .ok none => add_cookies rest jar
    | .kerr _ => jar
    | .raw _ => jar

/-- `timestamp = payload.get("timestamp", 0)` followed by
`time.time() - timestamp`: a number is used as is, a boolean as 0/1, any
other type raises `TypeError` in the subtraction. -/
def timestamp_value (v : PyJson) : Option Int :=
  match v with
  | .num t => some t
  | .bool b => some (if b then 1 else 0)
  | _ => none

/-- `SESSION_MAX_AGE = 60 * 30` (source line 28). -/
def SESSION_MAX_AGE : Int := 60 * 30

/-- The body of the `try` block of `_load_session_cache` applied to a
parsed payload (source lines 175-185); every raised exception is swallowed
by `except Exception`, leaving the jar as mutated so far. -/
def load_parsed_cache (now : Int) (payload : PyJson) (jar : List PyJson) : List PyJson :=
  match payload with
  | .obj kvs =>
    match timestamp_value ((kvs.lookup "timestamp").getD (.num 0)) with
    | none => jar
    | some t =>
      if now - t > SESSION_MAX_AGE then jar
      else
        match (kvs.lookup "cookies").getD (.arr []) with
        | .arr cs => add_cookies cs jar
        | _ => jar
  | _ => jar

/-- `KyoceraClient._load_session_cache` (source lines 169-187): a missing
file returns at once; a file `json.load` cannot read raises inside the
`try` and is swallowed; a parsed payload is processed by the `try` body. -/
def load_session_cache (now : Int) (file : CacheFile) (jar : List PyJson) : List PyJson :=
  match file with
  | .absent => jar
  | .unreadable => jar
  | .parsed payload => load_parsed_cache now payload jar

/-- JSON encoding of an optional string (Python `None` becomes `null`). -/
def opt_str_json : Option String → PyJson
  | some s => .str s
  | none => .null

/-- JSON encoding of an optional integer. -/
def opt_int_json : Option Int → PyJson
  | some n => .num n
  | none => .null

/-- The JSON object `json.dump` writes for one `_cookie_to_dict` result. -/
def cookie_dict_json (d : CookieDict) : PyJson :=
  .obj
    [("name", .str d.name), ("value", opt_str_json d.value), ("domain", .str d.domain),
     ("path", .str d.path), ("secure", .bool d.secure), ("expires", opt_int_json d.expires),
     ("discard", .bool d.discard)]

/-- The payload written by `_persist_session` (source lines 189-196):
`\x7b"timestamp": time.time(), "cookies": [...]\x7d`. -/
def persist_payload (now : Int) (jar : List PyCookie) : PyJson :=
  .obj
    [("timestamp", .num now),
     ("cookies", .arr (jar.map (fun c => cookie_dict_json (cookie_to_dict c))))]

/-! ## `get_status` orchestration (source lines 412-420)

The two possible `fetch_realtime` calls are an oracle indexed by call
order; `login` is abstracted to its outcome.  The trace records how many
realtime fetches, `login()` calls and `_persist_session` writes the call
performed.  `login()` persists the session as its final statement (source
line 357), so a failing login performs no persist; `get_status` persists
once more after a successful retry fetch (source line 419). -/

/-- Outcome of a `login()` call.  `login` raises only typed errors: network
and HTTP failures propagate from `_request`, a missing form raises
`KyoceraLoginError`, rejected credentials raise `KyoceraLoginError`. -/
inductive LoginR where
  | ok : LoginR
  | err (e : KErr) : LoginR
deriving DecidableEq

/-- Call counts observed during one `get_status` call. -/
structure Trace where
  fetches : Nat
  logins : Nat
  persists : Nat
deriving DecidableEq

/-- `_persist_session` writes once unless caching is disabled (source
lines 189-191). -/
def persist_writes (disableCache : Bool) : Nat :=
  if disableCache then 0 else 1

/-- `KyoceraClient.get_status` (source lines 412-420): try
`fetch_realtime`; only `KyoceraAuthRequired` is caught, triggering
`login()` then a second `fetch_realtime` whose outcome propagates
unchanged, with a `_persist_session` after a successful retry. -/
def get_status (disableCache : Bool) (fetch : Nat → POut PyJson) (login : LoginR) :
    POut PyJson × Trace :=
  match fetch 0 with
  | .ok d => (.ok d, ⟨1, 0, 0⟩)
  | .raw r => (.raw r, ⟨1, 0, 0⟩)
  | .kerr e =>
    match e with
    | .authRequired _ =>
      match login with
      | .err e2 => (.kerr e2, ⟨1, 1, 0⟩)
      | .ok =>
        let p := persist_writes disableCache
        match fetch 1 with
        | .ok d => (.ok d, ⟨2, 1, p + p⟩)
        | .kerr e3 => (.kerr e3, ⟨2, 1, p⟩)
        | .raw r => (.raw r, ⟨2, 1, p⟩)
    | _ => (.kerr e, ⟨1, 0, 0⟩)

/-! ## CSRF token lifecycle (source lines 160, 296-300, 374-377)

Exactly two statements in the source assign `self.csrf_token` after
construction: the guarded absorption of the parser token in
`_download_login_form` (lines 299-300) and the regex update in
`_update_csrf_from_html` (lines 376-377).  Each step carries the
observable its response produced. -/

/-- One assignment site for `self.csrf_token`. -/
inductive CsrfStep where
  | viaParser (tok : Option String) : CsrfStep
  | viaHtml (found : Option String) : CsrfStep
deriving DecidableEq

/-- Effect of one assignment site: `if parser.csrf_token:` guards the
parser absorption (the empty string is falsy), `if match:` guards the
regex update (the captured group is then stored unconditionally). -/
def apply_csrf_step (c : Option String) : CsrfStep → Option String
  | .viaParser tok =>
    match tok with
    | some t => if t = "" then c else some t
    | none => c
  | .viaHtml found =>
    match found with
    | some t => some t
    | none => c

/-- The token provided by the environment of a step. -/
def csrf_step_source : CsrfStep → Option String
  | .viaParser tok => tok
  | .viaHtml found => found

/-- Run a sequence of assignment sites. -/
def run_csrf_steps (c : Option String) (steps : List CsrfStep) : Option String :=
  steps.foldl apply_csrf_step c

/-- The csrf assignment sites executed by `login()` (source lines
341-357): the parser absorption inside `_download_login_form`, then — when
the POST succeeded and the credential check passed — the regex update on
the response body.  An earlier exception cuts the sequence short. -/
def login_csrf_steps (downloadOk : Bool) (parserTok : Option String)
    (reachedMetaScan : Bool) (postTok : Option String) : List CsrfStep :=
  if downloadOk then
    .viaParser parserTok :: (if reachedMetaScan then [.viaHtml postTok] else [])
  else []

/-- The csrf assignment sites executed by `_ensure_signage_ready` (source
lines 359-372): nothing when already primed or when the GET failed,
otherwise the regex update on the signage page. -/
def prime_csrf_steps (alreadyPrimed : Bool) (succeeded : Bool)
    (found : Option String) : List CsrfStep :=
  if alreadyPrimed then [] else if succeeded then [.viaHtml found] else []

/-- The csrf assignment sites executed by `fetch_realtime` (source lines
379-410): only those of its `_ensure_signage_ready` call; the realtime
response itself never writes the token. -/
def fetch_csrf_steps (alreadyPrimed : Bool) (primeSucceeded : Bool)
    (found : Option String) : List CsrfStep :=
  prime_csrf_steps alreadyPrimed primeSucceeded found

/-- Whether a JSON value is a dictionary. -/
def payload_is_obj : PyJson → Bool
  | .obj _ => true
  | _ => false

/-- A cookies-list entry that yields a cookie added to the jar. -/
def cookie_addable (d : PyJson) : Bool :=
  match cookie_from_dict_json d with
  | .ok (some _) => true
  | _ => false

/-- A cookies-list entry on which `_cookie_from_dict` raises, aborting the
load loop. -/
def cookie_load_raises (d : PyJson) : Bool :=
  match cookie_from_dict_json d with
  | .raw _ => true
  | _ => false

/-! # Theorems -/

theorem cookie_from_dict_json_encoded (d : CookieDict) (h : d.name ≠ "") :
    cookie_from_dict_json (cookie_dict_json d) = .ok (some (cookie_dict_json d)) := by
  simp [cookie_from_dict_json, cookie_dict_json, List.lookup, pyTruthy, h]

theorem add_cookies_encoded (l : List PyCookie) :
    ∀ jar : List PyJson, (∀ c ∈ l, c.name ≠ "") →
    add_cookies (l.map (fun c => cookie_dict_json (cookie_to_dict c))) jar
      = jar ++ l.map (fun c => cookie_dict_json (cookie_to_dict c)) := by
  induction l with
  | nil => intro jar _; simp [add_cookies]
  | cons c rest ih =>
    intro jar h
    have hc : (cookie_to_dict c).name ≠ "" := h c (by simp)
    simp only [List.map_cons, add_cookies, cookie_from_dict_json_encoded _ hc]
    rw [ih (jar ++ [cookie_dict_json (cookie_to_dict c)]) (fun x hx => h x (by simp [hx]))]
    simp

/-- C9: a cookie with a non-empty name survives the dictionary round trip
with name, value, domain, path, secure flag, expiry and discard flag
unchanged, and with `domain_specified` and `domain_initial_dot` recomputed
from the stored domain (explicitly set iff non-empty, leading-dot iff the
domain starts with a dot); consequently a jar persisted by
`_persist_session` and reloaded within the max-age window yields back
exactly the persisted cookies. -/
theorem cookie_roundtrip_c9 (c : PyCookie) (jar : List PyCookie) (savedAt loadedAt : Int)
    (hname : c.name ≠ "") (hjar : ∀ x ∈ jar, x.name ≠ "")
    (hfresh : loadedAt - savedAt ≤ SESSION_MAX_AGE) :
    (∃ c2, cookie_from_dict (cookie_to_dict c) = some c2 ∧
      c2.name = c.name ∧ c2.value = c.value ∧ c2.domain = c.domain ∧ c2.path = c.path ∧
      c2.secure = c.secure ∧ c2.expires = c.expires ∧ c2.discard = c.discard ∧
      (c2.domain_specified = true ↔ c.domain ≠ "") ∧
      c2.domain_initial_dot = leadsWith ".".data c.domain.data) ∧
    load_session_cache loadedAt (.parsed (persist_payload savedAt jar)) []
      = jar.map (fun x => cookie_dict_json (cookie_to_dict x)) := by
  constructor
  · refine ⟨⟨c.name, c.value, c.domain, c.path, c.secure, c.expires, c.discard,
      !decide (c.domain = ""), leadsWith ".".data c.domain.data, true⟩,
      ?_, rfl, rfl, rfl, rfl, rfl, rfl, rfl, ?_, rfl⟩
    · simp [cookie_from_dict, cookie_to_dict, hname]
    · simp
  · have hexp : ¬(loadedAt - savedAt > SESSION_MAX_AGE) := by omega
    have hstep : load_session_cache loadedAt (.parsed (persist_payload savedAt jar)) []
        = add_cookies (jar.map (fun x => cookie_dict_json (cookie_to_dict x))) [] := by
      show (if loadedAt - savedAt > SESSION_MAX_AGE then ([] : List PyJson)
            else add_cookies (jar.map (fun x => cookie_dict_json (cookie_to_dict x))) []) = _
      rw [if_neg hexp]
    rw [hstep]
    simpa using add_cookies_encoded jar [] hjar

/-- C9 witness: the concrete cookie of the spec fixture round-trips and a
one-cookie jar persisted at time 100 reloads intact at time 160. -/
theorem cookie_roundtrip_c9_witness :
    load_session_cache 160
        (.parsed (persist_payload 100 [⟨"a", some "1", "x", "/", true, none, false, true, false, true⟩])) []
      = [cookie_dict_json (cookie_to_dict ⟨"a", some "1", "x", "/", true, none, false, true, false, true⟩)] :=
  (cookie_roundtrip_c9 ⟨"a", some "1", "x", "/", true, none, false, true, false, true⟩
    [⟨"a", some "1", "x", "/", true, none, false, true, false, true⟩] 100 160
    (by decide) (by decide) (by decide)).2

/-- C1: whatever the two realtime fetch outcomes are, `get_status` makes at
most two fetches and at most one login; when the first fetch raises
`KyoceraAuthRequired` it performs exactly one login, and if that login
returns normally there is exactly one further fetch whose outcome — in
particular a second `KyoceraAuthRequired` — propagates to the caller
unchanged, so the first auth-required never reaches the caller. -/
theorem get_status_retry_once (dc : Bool) (fetch : Nat → POut PyJson) (login : LoginR)
    (m : String) :
    ((get_status dc fetch login).2.fetches ≤ 2 ∧ (get_status dc fetch login).2.logins ≤ 1) ∧
    (fetch 0 = .kerr (.authRequired m) →
      (get_status dc fetch login).2.logins = 1 ∧
      (login = .ok → (get_status dc fetch login).2.fetches = 2 ∧
        (get_status dc fetch login).1 = fetch 1) ∧
      (∀ e, login = .err e → (get_status dc fetch login).2.fetches = 1 ∧
        (get_status dc fetch login).1 = .kerr e)) := by
  rcases hf : fetch 0 with d | e | r
  · have hrun : get_status dc fetch login = (.ok d, ⟨1, 0, 0⟩) := by
      unfold get_status; rw [hf]
    rw [hrun]; simp [hf]
  · rcases e with m0 | m0 | ⟨cd, bd⟩ | m0 | ⟨n, rr⟩ | n
    case authRequired =>
      rcases login with _ | e2
      · rcases hf1 : fetch 1 with d1 | e1 | r1
        · have hrun : get_status dc fetch LoginR.ok
              = (.ok d1, ⟨2, 1, persist_writes dc + persist_writes dc⟩) := by
            unfold get_status; rw [hf, hf1]
          rw [hrun]; simp [hf, hf1]
        · have hrun : get_status dc fetch LoginR.ok
              = (.kerr e1, ⟨2, 1, persist_writes dc⟩) := by
            unfold get_status; rw [hf, hf1]
          rw [hrun]; simp [hf, hf1]
        · have hrun : get_status dc fetch LoginR.ok
              = (.raw r1, ⟨2, 1, persist_writes dc⟩) := by
            unfold get_status; rw [hf, hf1]
          rw [hrun]; simp [hf, hf1]
      · have hrun : get_status dc fetch (LoginR.err e2) = (.kerr e2, ⟨1, 1, 0⟩) := by
          unfold get_status; rw [hf]
        rw [hrun]; simp [hf]
    all_goals {
      first
      | (have hrun : get_status dc fetch login = (.kerr (.loginError m0), ⟨1, 0, 0⟩) := by
          unfold get_status; rw [hf]
         rw [hrun]; simp [hf])
      | (have hrun : get_status dc fetch login = (.kerr (.httpError cd bd), ⟨1, 0, 0⟩) := by
          unfold get_status; rw [hf]
         rw [hrun]; simp [hf])
      | (have hrun : get_status dc fetch login = (.kerr (.protocolError m0), ⟨1, 0, 0⟩) := by
          unfold get_status; rw [hf]
         rw [hrun]; simp [hf])
      | (have hrun : get_status dc fetch login = (.kerr (.networkError n rr), ⟨1, 0, 0⟩) := by
          unfold get_status; rw [hf]
         rw [hrun]; simp [hf])
      | (have hrun : get_status dc fetch login = (.kerr (.requestFailed n), ⟨1, 0, 0⟩) := by
          unfold get_status; rw [hf]
         rw [hrun]; simp [hf]) }
  · have hrun : get_status dc fetch login = (.raw r, ⟨1, 0, 0⟩) := by
      unfold get_status; rw [hf]
    rw [hrun]; simp [hf]

/-- C1 witness: two simulated auth-required fetches in a row give exactly
one login, two fetches, and the second auth-required surfaces. -/
theorem get_status_retry_once_witness :
    (get_status false (fun n => if n = 0 then .kerr (.authRequired "a") else .kerr (.authRequired "b")) .ok).1
      = .kerr (.authRequired "b") ∧
    (get_status false (fun n => if n = 0 then .kerr (.authRequired "a") else .kerr (.authRequired "b")) .ok).2.fetches = 2 ∧
    (get_status false (fun n => if n = 0 then .kerr (.authRequired "a") else .kerr (.authRequired "b")) .ok).2.logins = 1 := by
  have h := (get_status_retry_once false
    (fun n => if n = 0 then .kerr (.authRequired "a") else .kerr (.authRequired "b")) .ok "a").2 rfl
  refine ⟨?_, (h.2.1 rfl).1, h.1⟩
  rw [(h.2.1 rfl).2]
  simp

/-- C7 counterexample: with caching enabled, a `get_status` call whose
first fetch succeeds returns the status record yet performs zero
`_persist_session` writes, refuting the claim that every record-returning
call persists the session. -/
theorem get_status_first_success_no_persist :
    (get_status false (fun _ => .ok (.obj [])) .ok).1 = .ok (.obj []) ∧
    (get_status false (fun _ => .ok (.obj [])) .ok).2.persists = 0 :=
  ⟨rfl, rfl⟩

/-- C7 amended: with caching enabled, `get_status` persists the session
only on the re-authentication path — twice there, once inside `login()`
and once after the successful retry fetch — while a call whose first fetch
succeeds performs no persist at all. -/
theorem get_status_persist_on_reauth_only (fetch : Nat → POut PyJson) (login : LoginR)
    (d : PyJson) (m : String) :
    (fetch 0 = .ok d → get_status false fetch login = (.ok d, ⟨1, 0, 0⟩)) ∧
    (fetch 0 = .kerr (.authRequired m) → login = .ok → fetch 1 = .ok d →
      get_status false fetch login = (.ok d, ⟨2, 1, 2⟩)) := by
  constructor
  · intro h; simp [get_status, h]
  · intro h1 h2 h3
    subst h2
    simp [get_status, h1, h3, persist_writes]

/-- C7 amended witness: an auth-required first fetch followed by a
successful login and retry yields the record with exactly two persists. -/
theorem get_status_persist_on_reauth_only_witness :
    get_status false (fun n => if n = 0 then .kerr (.authRequired "x") else .ok (.num 1)) .ok
      = (.ok (.num 1), ⟨2, 1, 2⟩) :=
  (get_status_persist_on_reauth_only
    (fun n => if n = 0 then .kerr (.authRequired "x") else .ok (.num 1)) .ok (.num 1) "x").2
    rfl rfl rfl

/-- C10: a well-formed envelope with `result = "ok"` but no `data` key
makes `fetch_realtime` raise a raw `KeyError`, which is outside the
`KyoceraError` hierarchy and therefore escapes the catch-all handler of
the CLI entry point. -/
theorem fetch_realtime_missing_data_escapes :
    fetch_realtime_classify (fun _ => some (.obj [("result", .str "ok")]))
        (.ok "\x7b\"result\": \"ok\"\x7d") = .raw .keyError ∧
    main_handles (.raw .keyError) = false :=
  ⟨rfl, rfl⟩

theorem apply_csrf_step_isSome (c : Option String) (s : CsrfStep) (h : c.isSome = true) :
    (apply_csrf_step c s).isSome = true := by
  rcases s with tok | found
  · rcases tok with _ | t
    · exact h
    · by_cases ht : t = "" <;> simp [apply_csrf_step, ht, h]
  · rcases found with _ | t <;> simp [apply_csrf_step, h]

theorem run_csrf_steps_isSome (steps : List CsrfStep) :
    ∀ c : Option String, c.isSome = true → (run_csrf_steps c steps).isSome = true := by
  induction steps with
  | nil => intro c h; exact h
  | cons s rest ih =>
    intro c h
    exact ih (apply_csrf_step c s) (apply_csrf_step_isSome c s h)

/-- C8: the CSRF token held on the session manager is written by exactly
two sites (the guarded parser absorption and the regex update); each write
either leaves the token unchanged or overwrites it with a token extracted
from the response, so along any sequence of operations — in particular the
step sequences of `login`, `_ensure_signage_ready` and `fetch_realtime` —
a token once non-None stays non-None. -/
theorem csrf_token_never_cleared (steps : List CsrfStep) (c : Option String) :
    (c.isSome = true → (run_csrf_steps c steps).isSome = true) ∧
    (∀ s c0, apply_csrf_step c0 s = c0 ∨
      ∃ t, csrf_step_source s = some t ∧ apply_csrf_step c0 s = some t) ∧
    (∀ downloadOk parserTok reachedMetaScan postTok, c.isSome = true →
      (run_csrf_steps c (login_csrf_steps downloadOk parserTok reachedMetaScan postTok)).isSome
        = true) ∧
    (∀ alreadyPrimed succeeded found, c.isSome = true →
      (run_csrf_steps c (prime_csrf_steps alreadyPrimed succeeded found)).isSome = true) ∧
    (∀ alreadyPrimed primeSucceeded found, c.isSome = true →
      (run_csrf_steps c (fetch_csrf_steps alreadyPrimed primeSucceeded found)).isSome = true) := by
  refine ⟨run_csrf_steps_isSome steps c, ?_, ?_, ?_, ?_⟩
  · intro s c0
    rcases s with tok | found
    · rcases tok with _ | t
      · exact Or.inl rfl
      · by_cases ht : t = ""
        · exact Or.inl (by simp [apply_csrf_step, ht])
        · exact Or.inr ⟨t, rfl, by simp [apply_csrf_step, ht]⟩
    · rcases found with _ | t
      · exact Or.inl rfl
      · exact Or.inr ⟨t, rfl, rfl⟩
  · intro dOk pTok rMS postTok h
    exact run_csrf_steps_isSome _ c h
  · intro aP s f h
    exact run_csrf_steps_isSome _ c h
  · intro aP pS f h
    exact run_csrf_steps_isSome _ c h

/-- C8 witness: a known token stays known across a priming update that
finds no fresh meta tag. -/
theorem csrf_token_never_cleared_witness :
    (run_csrf_steps (some "tok0") [CsrfStep.viaHtml none]).isSome = true :=
  (csrf_token_never_cleared [CsrfStep.viaHtml none] (some "tok0")).1 rfl

/-- C2: for the realtime fetch, HTTP 401/403 maps to auth-required; a body
whose first non-whitespace character is `<` maps to auth-required; a body
that fails JSON parsing is a protocol error; a parsed envelope whose
`result` field is not the string `"ok"` is a protocol error; an envelope
with `result = "ok"` returns its `data` field unchanged. -/
theorem fetch_realtime_envelope_cases (parse : String → Option PyJson) (code : Nat)
    (b body : String) (kvs : List (String × PyJson)) (d : PyJson) :
    ((code = 401 ∨ code = 403) →
      fetch_realtime_classify parse (.httpFail code b)
        = .kerr (.authRequired "Session expired or unauthorized.")) ∧
    (starts_with_lt body = true →
      fetch_realtime_classify parse (.ok body)
        = .kerr (.authRequired "Received HTML instead of JSON; probably logged out.")) ∧
    (starts_with_lt body = false → parse body = none →
      fetch_realtime_classify parse (.ok body)
        = .kerr (.protocolError "Failed to parse realtime payload")) ∧
    (starts_with_lt body = false → parse body = some (.obj kvs) →
      result_is_ok (kvs.lookup "result") = false →
      fetch_realtime_classify parse (.ok body)
        = .kerr (.protocolError "Unexpected API result")) ∧
    (starts_with_lt body = false → parse body = some (.obj kvs) →
      kvs.lookup "result" = some (.str "ok") → kvs.lookup "data" = some d →
      fetch_realtime_classify parse (.ok body) = .ok d) := by
  refine ⟨?_, ?_, ?_, ?_, ?_⟩
  · intro h
    simp [fetch_realtime_classify, h]
  · intro h
    simp [fetch_realtime_classify, h]
  · intro h1 h2
    simp [fetch_realtime_classify, h1, h2]
  · intro h1 h2 h3
    simp [fetch_realtime_classify, h1, h2, h3]
  · intro h1 h2 h3 h4
    simp [fetch_realtime_classify, h1, h2, h3, h4, result_is_ok]

/-- C2 witness: one concrete instance of each classification case. -/
theorem fetch_realtime_envelope_cases_witness :
    fetch_realtime_classify (fun _ => none) (.httpFail 401 "")
      = .kerr (.authRequired "Session expired or unauthorized.") ∧
    fetch_realtime_classify (fun _ => none) (.ok "  <html>")
      = .kerr (.authRequired "Received HTML instead of JSON; probably logged out.") ∧
    fetch_realtime_classify (fun _ => none) (.ok "nope")
      = .kerr (.protocolError "Failed to parse realtime payload") ∧
    fetch_realtime_classify (fun _ => some (.obj [("result", .str "error")])) (.ok "x")
      = .kerr (.protocolError "Unexpected API result") ∧
    fetch_realtime_classify (fun _ => some (.obj [("result", .str "ok"), ("data", .num 7)]))
        (.ok "x") = .ok (.num 7) :=
  ⟨(fetch_realtime_envelope_cases (fun _ => none) 401 "" "" [] .null).1 (Or.inl rfl),
   (fetch_realtime_envelope_cases (fun _ => none) 0 "" "  <html>" [] .null).2.1 rfl,
   (fetch_realtime_envelope_cases (fun _ => none) 0 "" "nope" [] .null).2.2.1 rfl rfl,
   (fetch_realtime_envelope_cases (fun _ => some (.obj [("result", .str "error")])) 0 "" "x"
     [("result", .str "error")] .null).2.2.2.1 rfl rfl rfl,
   (fetch_realtime_envelope_cases (fun _ => some (.obj [("result", .str "ok"), ("data", .num 7)]))
     0 "" "x" [("result", .str "ok"), ("data", .num 7)] (.num 7)).2.2.2.2 rfl rfl rfl rfl⟩

theorem finalize_src_eq_spec (f : PForm) : finalize_src f = finalize_spec f := by
  rcases f with ⟨m, a, fl⟩
  cases a <;> rfl

theorem choose_form_loop_some (g : PForm) :
    ∀ fs : List PForm, choose_form_loop (some g) fs =
      (match fs.find? post_and_login with
       | some f => .ok (finalize_src f)
       | none => .ok (finalize_src g)) := by
  intro fs
  induction fs with
  | nil => rfl
  | cons f rest ih =>
    by_cases hp : f.method = "post"
    · by_cases hl : has_login_field f = true
      · have hpl : post_and_login f = true := by simp [post_and_login, hp, hl]
        simp [choose_form_loop, hp, hl, List.find?, hpl]
      · have hl' : has_login_field f = false := by simpa using hl
        have hpl : post_and_login f = false := by simp [post_and_login, hl']
        simp [choose_form_loop, hp, hl', List.find?, hpl, ih]
    · have hpl : post_and_login f = false := by simp [post_and_login, hp]
      simp [choose_form_loop, hp, List.find?, hpl, ih]

theorem choose_form_loop_eq_spec : ∀ fs : List PForm, choose_form_loop none fs = spec_choose fs := by
  intro fs
  induction fs with
  | nil => rfl
  | cons f rest ih =>
    by_cases hp : f.method = "post"
    · have hpost : (f.method == "post") = true := by simp [hp]
      by_cases hl : has_login_field f = true
      · have hpl : post_and_login f = true := by simp [post_and_login, hp, hl]
        simp [choose_form_loop, hp, hl, spec_choose, List.find?, hpl, finalize_src_eq_spec]
      · have hl' : has_login_field f = false := by simpa using hl
        have hpl : post_and_login f = false := by simp [post_and_login, hl']
        have hloop : choose_form_loop none (f :: rest) = choose_form_loop (some f) rest := by
          simp [choose_form_loop, hp, hl']
        rw [hloop, choose_form_loop_some f rest]
        rcases hfind : rest.find? post_and_login with _ | x
        · simp [spec_choose, List.find?, hpl, hfind, hpost, finalize_src_eq_spec]
        · simp [spec_choose, List.find?, hpl, hfind, finalize_src_eq_spec]
    · have hpost : (f.method == "post") = false := by simp [hp]
      have hpl : post_and_login f = false := by simp [post_and_login, hp]
      have hloop : choose_form_loop none (f :: rest) = choose_form_loop none rest := by
        simp [choose_form_loop, hp]
      rw [hloop, ih]
      simp [spec_choose, List.find?, hpl, hpost]

/-- C3: on every document, the login-form locator implements the selection
policy of the spec: the first POST-method form with a field name containing
`email` or `login` case-insensitively, wherever it sits among the POST
forms; else the first POST-method form in document order; else a
login-form-not-found failure; a missing or empty `action` of the selected
form becomes `/users/sign_in`. -/
theorem locate_login_form_spec (doc : List HTok) :
    locate_login_form doc = spec_locate_login_form doc :=
  choose_form_loop_eq_spec (parse_login_page doc).forms

theorem request_go_all_net (oracle : Nat → AttemptR) (retries : Nat) :
    ∀ k attempt, retries - 1 - attempt = k → attempt < retries →
    (∀ i, attempt ≤ i → i < retries → ∃ r, oracle i = .netFail r) →
    request_go oracle retries attempt =
      ⟨.kerr (.networkError retries ((oracle (retries - 1)).reason)),
       (List.range' attempt (retries - 1 - attempt)).map (fun j => 2 ^ j),
       retries - attempt⟩ := by
  intro k
  induction k with
  | zero =>
    intro attempt hk hlt hall
    have ha : attempt = retries - 1 := by omega
    obtain ⟨r, hr⟩ := hall attempt le_rfl hlt
    have hnotlt : ¬(attempt < retries - 1) := by omega
    have hone : retries - attempt = 1 := by omega
    rw [request_go]
    rw [dif_pos hlt, hr]
    dsimp only
    rw [if_neg hnotlt]
    rw [hk, hone, ← ha, hr]
    rfl
  | succ k ih =>
    intro attempt hk hlt hall
    have hlt2 : attempt < retries - 1 := by omega
    obtain ⟨r, hr⟩ := hall attempt le_rfl hlt
    rw [request_go]
    rw [dif_pos hlt, hr]
    dsimp only
    rw [if_pos hlt2]
    rw [ih (attempt + 1) (by omega) (by omega) (fun i h1 h2 => hall i (by omega) h2)]
    have hd : retries - 1 - attempt = k + 1 := hk
    have hd2 : retries - 1 - (attempt + 1) = k := by omega
    have hat : retries - (attempt + 1) + 1 = retries - attempt := by omega
    simp only [hd, hd2, List.range'_succ, List.map_cons, hat]

/-- C5: when every attempt fails at the transport level, `_request` sleeps
`2 ^ attempt` seconds between consecutive attempts — one delay fewer than
the attempt count, none after the last — and raises a network error
wrapping the final cause; with the default `retries = 3` the delays are
exactly 1 second then 2 seconds. -/
theorem request_network_backoff (oracle : Nat → AttemptR) (retries : Nat)
    (h1 : 1 ≤ retries) (h2 : ∀ i, i < retries → ∃ r, oracle i = .netFail r) :
    request oracle retries =
      ⟨.kerr (.networkError retries ((oracle (retries - 1)).reason)),
       (List.range (retries - 1)).map (fun j => 2 ^ j), retries⟩ ∧
    (retries = 3 → (request oracle retries).delays = [1, 2]) := by
  have hmain : request oracle retries =
      ⟨.kerr (.networkError retries ((oracle (retries - 1)).reason)),
       (List.range' 0 (retries - 1)).map (fun j => 2 ^ j), retries⟩ := by
    have := request_go_all_net oracle retries (retries - 1 - 0) 0 rfl (by omega)
      (fun i _ h => h2 i h)
    simpa [request] using this
  constructor
  · rw [hmain, List.range_eq_range']
  · intro h3
    subst h3
    rw [hmain]
    rfl

/-- C5 witness: three straight network failures with three retries produce
the delays 1s then 2s and a network error wrapping the final reason. -/
theorem request_network_backoff_witness :
    request (fun _ => .netFail "timeout") 3
      = ⟨.kerr (.networkError 3 "timeout"), [1, 2], 3⟩ := by
  have h := (request_network_backoff (fun _ => .netFail "timeout") 3 (by omega)
    (fun i _ => ⟨"timeout", rfl⟩)).1
  rw [h]
  rfl

theorem request_go_http_stops (oracle : Nat → AttemptR) (retries i : Nat) (c : Nat)
    (b : String) (hi : i < retries) (hpre : ∀ j, j < i → ∃ r, oracle j = .netFail r)
    (hhit : oracle i = .httpFail c b) :
    ∀ k attempt, i - attempt = k → attempt ≤ i →
    request_go oracle retries attempt =
      ⟨.kerr (.httpError c b), (List.range' attempt (i - attempt)).map (fun j => 2 ^ j),
       i - attempt + 1⟩ := by
  intro k
  induction k with
  | zero =>
    intro attempt hk hle
    have ha : attempt = i := by omega
    subst ha
    rw [request_go]
    rw [dif_pos hi, hhit]
    rw [hk]
    rfl
  | succ k ih =>
    intro attempt hk hle
    have hlt : attempt < i := by omega
    obtain ⟨r, hr⟩ := hpre attempt hlt
    have hlt2 : attempt < retries - 1 := by omega
    rw [request_go]
    rw [dif_pos (show attempt < retries by omega), hr]
    dsimp only
    rw [if_pos hlt2]
    rw [ih (attempt + 1) (by omega) (by omega)]
    have hd : i - attempt = k + 1 := hk
    have hd2 : i - (attempt + 1) = k := by omega
    have hat : i - (attempt + 1) + 1 + 1 = i - attempt + 1 := by omega
    simp only [hd, hd2, List.range'_succ, List.map_cons, hat]

/-- C6: when an attempt receives an HTTP-level failure response (after any
number of preceding transport failures), `_request` raises the HTTP error
carrying that status code and body at once — the attempt count is exactly
the index of the failing attempt plus one, whatever retry budget remains. -/
theorem request_http_never_retried (oracle : Nat → AttemptR) (retries i : Nat) (c : Nat)
    (b : String) (hi : i < retries) (hpre : ∀ j, j < i → ∃ r, oracle j = .netFail r)
    (hhit : oracle i = .httpFail c b) :
    request oracle retries =
      ⟨.kerr (.httpError c b), (List.range i).map (fun j => 2 ^ j), i + 1⟩ := by
  have := request_go_http_stops oracle retries i c b hi hpre hhit (i - 0) 0 rfl (by omega)
  simpa [request, List.range_eq_range'] using this

/-- C6 witness: an immediate HTTP 500 with five configured retries makes a
single attempt, no delays, and surfaces the code and body. -/
theorem request_http_never_retried_witness :
    request (fun _ => .httpFail 500 "boom") 5
      = ⟨.kerr (.httpError 500 "boom"), [], 1⟩ := by
  have h := request_http_never_retried (fun _ => .httpFail 500 "boom") 5 0 500 "boom"
    (by omega) (fun j hj => absurd hj (by omega)) rfl
  simpa using h

theorem cookie_addable_eq (d : PyJson) (h : cookie_addable d = true) :
    cookie_from_dict_json d = .ok (some d) := by
  cases d with
  | obj kvs =>
    by_cases ht : pyTruthy ((kvs.lookup "name").getD .null) = true
    · rcases hd : (kvs.lookup "domain").getD (.str "") with _ | b2 | n2 | s2 | xs2 | kvs2 <;>
        simp [cookie_addable, cookie_from_dict_json, ht, hd] at h ⊢
    · have ht' : pyTruthy ((kvs.lookup "name").getD .null) = false := by simpa using ht
      simp [cookie_addable, cookie_from_dict_json, ht'] at h
  | null => simp [cookie_addable, cookie_from_dict_json] at h
  | bool b => simp [cookie_addable, cookie_from_dict_json] at h
  | num n => simp [cookie_addable, cookie_from_dict_json] at h
  | str s => simp [cookie_addable, cookie_from_dict_json] at h
  | arr xs => simp [cookie_addable, cookie_from_dict_json] at h

theorem add_cookies_all_ok : ∀ (cs jar : List PyJson),
    (∀ c ∈ cs, cookie_addable c = true) → add_cookies cs jar = jar ++ cs := by
  intro cs
  induction cs with
  | nil => intro jar _; simp [add_cookies]
  | cons c rest ih =>
    intro jar h
    simp only [add_cookies, cookie_addable_eq c (h c (by simp))]
    rw [ih (jar ++ [c]) (fun x hx => h x (by simp [hx]))]
    simp

theorem add_cookies_stops (bad : PyJson) (hbad : cookie_load_raises bad = true) :
    ∀ (good rest jar : List PyJson),
    (∀ c ∈ good, cookie_addable c = true) →
    add_cookies (good ++ bad :: rest) jar = jar ++ good := by
  intro good
  induction good with
  | nil =>
    intro rest jar _
    rcases hcd : cookie_from_dict_json bad with a | e | r
    · simp [cookie_load_raises, hcd] at hbad
    · simp [cookie_load_raises, hcd] at hbad
    · simp [add_cookies, hcd]
  | cons c g ih =>
    intro rest jar h
    simp only [List.cons_append, add_cookies, cookie_addable_eq c (h c (by simp))]
    rw [List.append_eq, ih rest (jar ++ [c]) (fun x hx => h x (by simp [hx]))]
    simp

/-- C4 amended: an expired cache adds no cookie; a fresh cache runs the
cookie loop, which adds every well-formed entry; the load never raises —
a missing file, an unreadable file, a non-dictionary payload, a
non-numeric timestamp, or a malformed entry are all swallowed — but a
malformed entry partway through the cookies list only stops the loop,
keeping the cookies already added rather than leaving the jar as it was. -/
theorem load_session_cache_fail_open (now t : Int) (v : PyJson)
    (kvs : List (String × PyJson)) (cs good rest : List PyJson) (bad : PyJson)
    (jar : List PyJson) :
    (load_session_cache now .absent jar = jar) ∧
    (load_session_cache now .unreadable jar = jar) ∧
    (∀ payload, payload_is_obj payload = false →
      load_session_cache now (.parsed payload) jar = jar) ∧
    (kvs.lookup "timestamp" = some v → timestamp_value v = none →
      load_session_cache now (.parsed (.obj kvs)) jar = jar) ∧
    (kvs.lookup "timestamp" = some (.num t) → now - t > SESSION_MAX_AGE →
      load_session_cache now (.parsed (.obj kvs)) jar = jar) ∧
    (kvs.lookup "timestamp" = some (.num t) → now - t ≤ SESSION_MAX_AGE →
      kvs.lookup "cookies" = some (.arr cs) →
      load_session_cache now (.parsed (.obj kvs)) jar = add_cookies cs jar) ∧
    ((∀ c ∈ cs, cookie_addable c = true) → add_cookies cs jar = jar ++ cs) ∧
    ((∀ c ∈ good, cookie_addable c = true) → cookie_load_raises bad = true →
      add_cookies (good ++ bad :: rest) jar = jar ++ good) := by
  refine ⟨rfl, rfl, ?_, ?_, ?_, ?_, ?_, ?_⟩
  · intro payload hp
    cases payload <;> first | rfl | simp [payload_is_obj] at hp
  · intro h1 h2
    simp [load_session_cache, load_parsed_cache, h1, h2]
  · intro h1 h2
    simp [load_session_cache, load_parsed_cache, h1, timestamp_value, h2]
  · intro h1 h2 h3
    have hnot : ¬(now - t > SESSION_MAX_AGE) := by omega
    simp [load_session_cache, load_parsed_cache, h1, timestamp_value, hnot, h3]
  · intro h
    exact add_cookies_all_ok cs jar h
  · intro h1 h2
    exact add_cookies_stops bad h2 good rest jar h1

/-- C4 counterexample: a fresh cache whose cookies list holds one valid
entry followed by a malformed one leaves the jar holding the first cookie
— the claimed "any schema mismatch leaves the jar as it was" fails. -/
theorem load_session_cache_keeps_added_cookies :
    load_session_cache 1000 (.parsed (.obj [("timestamp", .num 1000),
        ("cookies", .arr [.obj [("name", .str "a")], .num 42])])) []
      = [.obj [("name", .str "a")]] ∧
    [PyJson.obj [("name", .str "a")]] ≠ ([] : List PyJson) :=
  ⟨rfl, by simp⟩

/-- C4 witness: concrete instances of each fail-open and loading case. -/
theorem load_session_cache_fail_open_witness :
    load_session_cache 100 (.parsed (.str "zzz")) [] = [] ∧
    load_session_cache 100 (.parsed (.obj [("timestamp", .str "x")])) [] = [] ∧
    load_session_cache 5000 (.parsed (.obj [("timestamp", .num 0)])) [] = [] ∧
    load_session_cache 100 (.parsed (.obj [("timestamp", .num 50),
        ("cookies", .arr [.obj [("name", .str "a")]])])) []
      = add_cookies [.obj [("name", .str "a")]] [] ∧
    add_cookies [.obj [("name", .str "a")]] [] = [] ++ [.obj [("name", .str "a")]] ∧
    add_cookies ([.obj [("name", .str "a")]] ++ .num 42 :: []) []
      = [] ++ [.obj [("name", .str "a")]] :=
  ⟨(load_session_cache_fail_open 100 0 .null [] [] [] [] .null []).2.2.1 (.str "zzz") rfl,
   (load_session_cache_fail_open 100 0 (.str "x") [("timestamp", .str "x")] [] [] [] .null
     []).2.2.2.1 rfl rfl,
   (load_session_cache_fail_open 5000 0 .null [("timestamp", .num 0)] [] [] [] .null
     []).2.2.2.2.1 rfl (by decide),
   (load_session_cache_fail_open 100 50 .null
     [("timestamp", .num 50), ("cookies", .arr [.obj [("name", .str "a")]])]
     [.obj [("name", .str "a")]] [] [] .null []).2.2.2.2.2.1 rfl (by decide) rfl,
   (load_session_cache_fail_open 100 0 .null [] [.obj [("name", .str "a")]] [] [] .null
     []).2.2.2.2.2.2.1 (by decide),
   (load_session_cache_fail_open 100 0 .null [] [] [.obj [("name", .str "a")]] [] (.num 42)
     []).2.2.2.2.2.2.2 (by decide) rfl⟩

end KyoceraCLI
